import Mathlib

/-!
Shallow embedding of `src/app.py` (UNIQUE_5_1): a small Flask application with a
password gate, a two-tier media store (local `static/uploads` copy plus a remote
Cloudinary upload), an append-only CSV event log with a best-effort webhook
mirror, and log-scan query endpoints for the latest admin/user story.

Effects are made explicit:
  * the CSV log is a list of records (append order, newest last);
  * the local upload directory is an association list of filename to bytes;
  * external outcomes (local `file.save`, the Cloudinary call, the CSV open for
    append, the webhook post) are oracle inputs, since the Python code catches
    their exceptions;
  * `request` data (files, form fields, JSON body, remote address) is a record
    of `Option String`s, mirroring Python's `dict.get` defaults.
-/

namespace UniqueApp

/-- `str or default` on an optional string: Python's `x or 'd'` treats both
`None` and the empty string as falsy (`ip = request.remote_addr or 'unknown'`). -/
def pyOrStr (s : Option String) (d : String) : String :=
  match s with
  | none => d
  | some v => if v == "" then d else v

/-- A JSON object / form dict / Cloudinary result dict, as a string association list. -/
abbrev Dict := List (String × String)

/-- Python `d.get(key, default)`. -/
def dictGet (d : Dict) (key dflt : String) : String :=
  match d.find? (fun p => p.1 == key) with
  | some p => p.2
  | none => dflt

/-- `ALLOWED_EXTENSIONS = {'mp4', 'mov', 'webm', 'ogg', 'mkv'}` (app.py line 22). -/
def ALLOWED_EXTENSIONS : List String := ["mp4", "mov", "webm", "ogg", "mkv"]

/-- `'.' in filename`, over the characters of the filename. -/
def containsDot : List Char → Bool
  | [] => false
  | c :: cs => c == '.' || containsDot cs

/-- `filename.rsplit('.', 1)[1]`: the characters after the last dot. Each dot
resets the accumulator to the remaining characters, so the final accumulator
is the suffix after the last dot (`allowed_file` only consults it when a dot
is present). -/
def afterLastDot (acc : List Char) : List Char → List Char
  | [] => acc
  | c :: cs => if c == '.' then afterLastDot cs cs else afterLastDot acc cs

/-- `allowed_file` (app.py lines 47-49):
`'.' in filename and filename.rsplit('.', 1)[1].lower() in ALLOWED_EXTENSIONS`. -/
def allowed_file (filename : String) : Bool :=
  containsDot filename.data &&
    ALLOWED_EXTENSIONS.contains
      (String.mk ((afterLastDot [] filename.data).map Char.toLower))

/-- `ADMIN_PASSWORD = os.getenv('ADMIN_PASSWORD', 'mrshaik')` (app.py line 44). -/
def ADMIN_PASSWORD (envValue : Option String) : String :=
  envValue.getD "mrshaik"

/-- One row of `logs.csv`: the fields written by `log_event`
(app.py line 60) in their fixed order. -/
structure Record where
  timestamp : String
  ip : String
  event : String
  password : String
  chat : String
  story_url : String
deriving Repr, DecidableEq

/-- The serialized CSV row, in the order passed to `writer.writerow`
(`[timestamp, ip, event, password, chat, story_url]`, app.py line 60). -/
def Record.toRow (r : Record) : List String :=
  [r.timestamp, r.ip, r.event, r.password, r.chat, r.story_url]

/-- The CSV log contents, in append order (newest last). -/
abbrev Log := List Record

/-- The JSON payload posted to the Google Apps Script webhook
(app.py lines 67-73). -/
structure WebhookPayload where
  event : String
  password : String
  chat : String
  story_url : String
  ip : String
deriving Repr, DecidableEq

/-- Environment oracle for one `log_event` call: whether the CSV append
succeeds (the `open`/`writerow` may raise, app.py lines 57-62), the configured
`GOOGLE_SCRIPT_URL`, and whether the `requests.post` to it succeeds
(any failure is caught, app.py lines 74-76). -/
structure LogEnv where
  csvWriteOk : Bool
  googleScriptUrl : String
  webhookDeliveryOk : Bool
deriving Repr, DecidableEq

/-- Observable outcome of one `log_event` call: the new CSV log, the trace of
rows passed to the CSV writer (always exactly one), and the webhook payloads
actually delivered to the mirror. -/
structure LogResult where
  log : Log
  attempted : List Record
  delivered : List WebhookPayload
deriving Repr, DecidableEq

/-- `log_event(ip, event, password='', chat='', story_url='')`
(app.py lines 51-76). Writes one CSV row (failure caught and swallowed), then
best-effort posts the same fields to the webhook if `GOOGLE_SCRIPT_URL` is set
(failure caught and swallowed). The optional parameters model Python's
keyword defaults: absent means empty string. -/
def log_event (env : LogEnv) (timestamp ip event : String)
    (password chat story_url : Option String) (log : Log) : LogResult :=
  let row : Record :=
    ⟨timestamp, ip, event, password.getD "", chat.getD "", story_url.getD ""⟩
  let log1 : Log := if env.csvWriteOk then log ++ [row] else log
  let payload : WebhookPayload :=
    ⟨event, password.getD "", chat.getD "", story_url.getD "", ip⟩
  let delivered : List WebhookPayload :=
    if env.googleScriptUrl != "" && env.webhookDeliveryOk then [payload] else []
  ⟨log1, [row], delivered⟩

/-- An HTTP response of this app: a plain-text client error with status 400,
the `redirect(url_for('main'))` success response, or a JSON body. -/
inductive HttpResponse where
  | badRequest (msg : String)
  | redirectMain
  | json (fields : Dict)
deriving Repr, DecidableEq

/-- HTTP status code of a response (Flask default: redirect is 302, jsonify 200). -/
def HttpResponse.status : HttpResponse → Nat
  | .badRequest _ => 400
  | .redirectMain => 302
  | .json _ => 200

/-- Outcome of `save_password`: the response and the new CSV log, plus the
trace of rows passed to the CSV writer. -/
structure SaveResult where
  response : HttpResponse
  log : Log
  attempted : List Record
deriving Repr, DecidableEq

/-- `save_password` (app.py lines 84-96): parse JSON (`or {}`), read
`password` with default `''`, compare with `ADMIN_PASSWORD`, log the attempt
with the raw credential, and answer `{'redirect': '/main'}` on match or
`{'message': 'Wrong password ❌'}` otherwise. -/
def save_password (adminPassword : String) (lenv : LogEnv) (timestamp : String)
    (jsonBody : Option Dict) (remoteAddr : Option String) (log : Log) : SaveResult :=
  let data := jsonBody.getD []
  let password := dictGet data "password" ""
  let ip := pyOrStr remoteAddr "unknown"
  if password == adminPassword then
    let lr := log_event lenv timestamp ip "password_attempt" (some password) none none log
    ⟨.json [("redirect", "/main")], lr.log, lr.attempted⟩
  else
    let lr := log_event lenv timestamp ip "password_attempt_failed" (some password) none none log
    ⟨.json [("message", "Wrong password ❌")], lr.log, lr.attempted⟩

/-- The `static/uploads` directory: filename to file bytes (here a `String`). -/
structure Disk where
  files : List (String × String)
deriving Repr, DecidableEq

/-- Read a file (`open(local_path, 'rb')`): `none` means the open raises. -/
def Disk.read (d : Disk) (name : String) : Option String :=
  (d.files.find? (fun p => p.1 == name)).map (fun p => p.2)

/-- `file.save(local_path)`: create or overwrite the file. -/
def Disk.write (d : Disk) (name content : String) : Disk :=
  ⟨(name, content) :: d.files.filter (fun p => !(p.1 == name))⟩

/-- The `'video'` entry of `request.files`: original filename and stream bytes. -/
structure FileStorage where
  filename : String
  content : String
deriving Repr, DecidableEq

/-- The parts of the upload request that `upload_story_video` reads:
`request.files.get('video')`, `request.form.get('uploader')`,
`request.remote_addr`. -/
structure UploadRequest where
  video : Option FileStorage
  uploader : Option String
  remoteAddr : Option String
deriving Repr, DecidableEq

/-- Environment oracle for one `upload_story_video` call:
  * `localSaveOk`: whether `file.save(local_path)` succeeds (its exception is
    caught, app.py lines 131-135);
  * `remote`: the Cloudinary `upload_large` outcome as a function of the bytes
    read from disk — either an exception or the result dict
    (`upload_result.get('secure_url', '')` is applied to it);
  * `secureFilename`: werkzeug's `secure_filename` sanitizer (external library);
  * `externalHost`: scheme and host prefixed by `url_for(..., _external=True)`;
  * `logEnv`: the environment of the nested `log_event` call. -/
structure UploadEnv where
  localSaveOk : Bool
  remote : String → Except String Dict
  secureFilename : String → String
  externalHost : String
  logEnv : LogEnv

/-- Observable outcome of one `upload_story_video` call: the response, the new
upload directory and CSV log, the rows passed to the CSV writer, and the bytes
handed to the Cloudinary uploader (empty if the upload was never attempted). -/
structure UploadOutcome where
  response : HttpResponse
  disk : Disk
  log : Log
  attempted : List Record
  remoteCalls : List String

/-- `upload_story_video` (app.py lines 103-158):
reject a missing `'video'` field, an empty filename, or a disallowed extension
with a 400; otherwise sanitize the name, save a local copy (failure caught),
open the local copy and upload it to Cloudinary (any failure caught, falling
back to the local `/uploads/<filename>` URL), pick the event kind from the
`uploader` form field, append one log record, and redirect to `/main`. -/
def upload_story_video (env : UploadEnv) (timestamp : String) (req : UploadRequest)
    (disk : Disk) (log : Log) : UploadOutcome :=
  match req.video with
  | none => ⟨.badRequest "No file part", disk, log, [], []⟩
  | some file =>
    if file.filename == "" then ⟨.badRequest "No selected file", disk, log, [], []⟩
    else
      let uploader := req.uploader.getD "user"
      let ip := pyOrStr req.remoteAddr "unknown"
      if !(allowed_file file.filename) then ⟨.badRequest "Unsupported file type", disk, log, [], []⟩
      else
        let filename := env.secureFilename file.filename
        let disk1 := if env.localSaveOk then disk.write filename file.content else disk
        let fallbackUrl := env.externalHost ++ "/uploads/" ++ filename
        let urlAndCalls : String × List String :=
          match disk1.read filename with
          | none => (fallbackUrl, [])
          | some bytes =>
            match env.remote bytes with
            | .ok uploadResult => (dictGet uploadResult "secure_url" "", [bytes])
            | .error _ => (fallbackUrl, [bytes])
        let event_name := if uploader == "admin" then "admin_story_upload" else "user_story_upload"
        let lr := log_event env.logEnv timestamp ip event_name none none (some urlAndCalls.1) log
        ⟨.redirectMain, disk1, lr.log, lr.attempted, urlAndCalls.2⟩

/-- The scan loop shared by `last_admin_story` and `last_user_story`
(app.py lines 170-173 and 187-190): over rows already reversed, return the
first `story_url` whose `event` matches and whose `story_url` is non-empty. -/
def find_latest_scan (kind : String) : List Record → String
  | [] => ""
  | r :: rest =>
    if r.event == kind && r.story_url != "" then r.story_url
    else find_latest_scan kind rest

/-- `find_latest(event_kind)`: read all rows (`none` models an unreadable log,
whose exception is caught leaving `url = ''`), scan `reversed(rows)`. -/
def find_latest (kind : String) (readResult : Option (List Record)) : String :=
  match readResult with
  | none => ""
  | some rows => find_latest_scan kind rows.reverse

/-- `last_admin_story` (app.py lines 160-176). -/
def last_admin_story (readResult : Option (List Record)) : HttpResponse :=
  .json [("url", find_latest "admin_story_upload" readResult)]

/-- `last_user_story` (app.py lines 178-193). -/
def last_user_story (readResult : Option (List Record)) : HttpResponse :=
  .json [("url", find_latest "user_story_upload" readResult)]

/-- `uploaded_file` (app.py lines 207-210): `/uploads/<filename>` serves the
named file from the local upload directory. -/
def uploaded_file (disk : Disk) (filename : String) : Option String :=
  disk.read filename

/-- The Cloudinary oracle respects the external API contract: a successful
`upload_large` result dict carries a non-empty `secure_url`. -/
def remoteSecureUrlNonempty (remote : String → Except String Dict) : Prop :=
  ∀ b d, remote b = Except.ok d → dictGet d "secure_url" "" ≠ ""

/-- The Cloudinary oracle fails on every input (simulated remote outage). -/
def remoteAlwaysFails (remote : String → Except String Dict) : Prop :=
  ∀ b d, remote b ≠ Except.ok d

/-! ## Helper lemmas -/

theorem find_latest_scan_skip (kind : String) (xs ys : List Record)
    (h : ∀ r ∈ xs, ¬(r.event = kind ∧ r.story_url ≠ "")) :
    find_latest_scan kind (xs ++ ys) = find_latest_scan kind ys := by
  induction xs with
  | nil => rfl
  | cons a tl ih =>
      have ha := h a (List.mem_cons_self a tl)
      have hcond : (a.event == kind && a.story_url != "") = false := by
        by_cases he : a.event = kind
        · have hu : a.story_url = "" := by
            by_contra hne
            exact ha ⟨he, hne⟩
          simp [hu]
        · simp [he]
      rw [List.cons_append]
      rw [show find_latest_scan kind (a :: (tl ++ ys))
            = if a.event == kind && a.story_url != "" then a.story_url
              else find_latest_scan kind (tl ++ ys) from rfl]
      rw [hcond]
      simp only [Bool.false_eq_true, if_false]
      exact ih (fun r hr => h r (List.mem_cons_of_mem a hr))

theorem find_latest_scan_none (kind : String) (xs : List Record)
    (h : ∀ r ∈ xs, ¬(r.event = kind ∧ r.story_url ≠ "")) :
    find_latest_scan kind xs = "" := by
  have := find_latest_scan_skip kind xs [] h
  simpa using this

theorem Disk.read_write (d : Disk) (name content : String) :
    (d.write name content).read name = some content := by
  simp [Disk.read, Disk.write]

theorem append_uploads_ne_empty (host fname : String) :
    host ++ "/uploads/" ++ fname ≠ "" := by
  intro h
  have h2 := congrArg String.length h
  rw [String.length_append, String.length_append] at h2
  have h3 : ("/uploads/" : String).length = 9 := rfl
  have h4 : ("" : String).length = 0 := rfl
  rw [h3, h4] at h2
  omega

/-! ## Claims -/

/-- C1: for every log state, `find_latest(event_kind)` (the `/last_admin_story`
and `/last_user_story` queries) returns the `story_url` of the most-recently
appended record whose `event_kind` matches and whose `story_url` is non-empty,
ignoring all earlier matching records. The log is in append order (newest
last); `l₂` holds the records appended after the matching record `r`. -/
theorem C1_find_latest_most_recent (l₁ l₂ : List Record) (r : Record)
    (hu : r.story_url ≠ "")
    (hl : ∀ x ∈ l₂, ¬(x.event = r.event ∧ x.story_url ≠ "")) :
    find_latest r.event (some (l₁ ++ r :: l₂)) = r.story_url ∧
    (r.event = "admin_story_upload" →
      last_admin_story (some (l₁ ++ r :: l₂)) = .json [("url", r.story_url)]) ∧
    (r.event = "user_story_upload" →
      last_user_story (some (l₁ ++ r :: l₂)) = .json [("url", r.story_url)]) := by
  have key : find_latest_scan r.event (l₁ ++ r :: l₂).reverse = r.story_url := by
    rw [List.reverse_append, List.reverse_cons, List.append_assoc]
    rw [find_latest_scan_skip r.event l₂.reverse ([r] ++ l₁.reverse)
          (fun x hx => hl x (List.mem_reverse.mp hx))]
    rw [show ([r] ++ l₁.reverse : List Record) = r :: l₁.reverse from rfl]
    rw [show find_latest_scan r.event (r :: l₁.reverse)
          = if r.event == r.event && r.story_url != "" then r.story_url
            else find_latest_scan r.event l₁.reverse from rfl]
    simp [hu]
  refine ⟨key, ?_, ?_⟩
  · intro h
    rw [last_admin_story, ← h]
    rw [show find_latest r.event (some (l₁ ++ r :: l₂))
          = find_latest_scan r.event (l₁ ++ r :: l₂).reverse from rfl]
    rw [key]
  · intro h
    rw [last_user_story, ← h]
    rw [show find_latest r.event (some (l₁ ++ r :: l₂))
          = find_latest_scan r.event (l₁ ++ r :: l₂).reverse from rfl]
    rw [key]

/-- Witness for C1: after appends
`[admin_story_upload ↦ "A", user_story_upload ↦ "B", admin_story_upload ↦ "C"]`,
`/last_admin_story` answers `"C"`. -/
theorem C1_find_latest_most_recent_witness :
    last_admin_story (some
      [⟨"t1", "ip", "admin_story_upload", "", "", "A"⟩,
       ⟨"t2", "ip", "user_story_upload", "", "", "B"⟩,
       ⟨"t3", "ip", "admin_story_upload", "", "", "C"⟩]) =
      .json [("url", "C")] := by
  have h := C1_find_latest_most_recent
      [⟨"t1", "ip", "admin_story_upload", "", "", "A"⟩,
       ⟨"t2", "ip", "user_story_upload", "", "", "B"⟩]
      []
      ⟨"t3", "ip", "admin_story_upload", "", "", "C"⟩
      (by decide) (by simp)
  exact h.2.1 rfl

/-- C6: on an unreadable log, an empty log, or a log with no matching record
of the queried kind (with non-empty `story_url`), the query endpoint answers
`{url: ""}` — a JSON response, never an error. The two endpoints are settled
over two independently quantified log states `rowsA` and `rowsU`, each
constrained only for its own queried kind, so a log full of user stories but
lacking admin matches is covered (and vice versa). -/
theorem C6_degrades_to_empty (rowsA rowsU : List Record)
    (hadmin : ∀ r ∈ rowsA, ¬(r.event = "admin_story_upload" ∧ r.story_url ≠ ""))
    (huser : ∀ r ∈ rowsU, ¬(r.event = "user_story_upload" ∧ r.story_url ≠ "")) :
    last_admin_story none = .json [("url", "")] ∧
    last_user_story none = .json [("url", "")] ∧
    last_admin_story (some rowsA) = .json [("url", "")] ∧
    last_user_story (some rowsU) = .json [("url", "")] := by
  refine ⟨rfl, rfl, ?_, ?_⟩
  · rw [last_admin_story]
    rw [show find_latest "admin_story_upload" (some rowsA)
          = find_latest_scan "admin_story_upload" rowsA.reverse from rfl]
    rw [find_latest_scan_none _ _ (fun r hr => hadmin r (List.mem_reverse.mp hr))]
  · rw [last_user_story]
    rw [show find_latest "user_story_upload" (some rowsU)
          = find_latest_scan "user_story_upload" rowsU.reverse from rfl]
    rw [find_latest_scan_none _ _ (fun r hr => huser r (List.mem_reverse.mp hr))]

/-- Witness for C6: an unreadable log degrades to `{url: ""}` on both
endpoints; `/last_admin_story` answers `{url: ""}` on a log that contains a
user story `"B"` and a chat message but no admin record with a non-empty
`story_url`; and `/last_user_story` answers `{url: ""}` on a log containing
only an admin story `"A"`. -/
theorem C6_degrades_to_empty_witness :
    last_admin_story none = .json [("url", "")] ∧
    last_user_story none = .json [("url", "")] ∧
    last_admin_story (some
      [⟨"t1", "ip", "user_story_upload", "", "", "B"⟩,
       ⟨"t2", "ip", "chat_message", "", "hello", ""⟩,
       ⟨"t3", "ip", "admin_story_upload", "", "", ""⟩]) = .json [("url", "")] ∧
    last_user_story (some
      [⟨"t1", "ip", "admin_story_upload", "", "", "A"⟩]) = .json [("url", "")] :=
  C6_degrades_to_empty
    [⟨"t1", "ip", "user_story_upload", "", "", "B"⟩,
     ⟨"t2", "ip", "chat_message", "", "hello", ""⟩,
     ⟨"t3", "ip", "admin_story_upload", "", "", ""⟩]
    [⟨"t1", "ip", "admin_story_upload", "", "", "A"⟩]
    (by decide) (by decide)

/-- C7: every `log_event` call passes exactly one row to the CSV writer, in
the fixed field order `timestamp, ip, event, password, chat, story_url`, with
the empty string for each absent optional field; when the CSV write succeeds
the log grows by exactly that row, when it fails the log is unchanged (the
exception is swallowed), and either way a caller such as `save_password`
returns the same response as it would with a healthy log file. -/
theorem C7_log_event_one_row (env : LogEnv) (timestamp ip event : String)
    (password chat story_url : Option String) (log : Log)
    (pw : String) (body : Option Dict) (addr : Option String) :
    (log_event env timestamp ip event password chat story_url log).attempted.map Record.toRow
        = [[timestamp, ip, event, password.getD "", chat.getD "", story_url.getD ""]] ∧
    (env.csvWriteOk = true →
      (log_event env timestamp ip event password chat story_url log).log
        = log ++ [⟨timestamp, ip, event, password.getD "", chat.getD "", story_url.getD ""⟩]) ∧
    (env.csvWriteOk = false →
      (log_event env timestamp ip event password chat story_url log).log = log) ∧
    (save_password pw env timestamp body addr log).response
      = (save_password pw ⟨true, env.googleScriptUrl, env.webhookDeliveryOk⟩
          timestamp body addr log).response := by
  refine ⟨rfl, ?_, ?_, ?_⟩
  · intro h
    simp [log_event, h]
  · intro h
    simp [log_event, h]
  · unfold save_password
    by_cases h : dictGet (body.getD []) "password" "" == pw
    · simp only [h, if_true]
    · simp only [h, Bool.false_eq_true, if_false]

/-- Witness for C7: a concrete call with absent optional fields, once with a
healthy CSV file and once with a failing one. -/
theorem C7_log_event_one_row_witness :
    (log_event ⟨true, "", false⟩ "t" "1.2.3.4" "chat_message" none (some "hi") none []).log
        = [⟨"t", "1.2.3.4", "chat_message", "", "hi", ""⟩] ∧
    (log_event ⟨false, "", false⟩ "t" "1.2.3.4" "chat_message" none (some "hi") none
        [⟨"t0", "ip", "password_attempt", "mrshaik", "", ""⟩]).log
        = [⟨"t0", "ip", "password_attempt", "mrshaik", "", ""⟩] :=
  ⟨(C7_log_event_one_row ⟨true, "", false⟩ "t" "1.2.3.4" "chat_message" none (some "hi") none []
      "pw" none none).2.1 rfl,
   (C7_log_event_one_row ⟨false, "", false⟩ "t" "1.2.3.4" "chat_message" none (some "hi") none
      [⟨"t0", "ip", "password_attempt", "mrshaik", "", ""⟩] "pw" none none).2.2.1 rfl⟩

/-- C8: the primary CSV append and the caller's outcome are independent of the
webhook mirror: two log environments that agree on the CSV outcome — but may
differ arbitrarily in whether the webhook is configured, succeeds, or fails —
produce the same log, the same attempted rows, and the same `save_password`
response and log. (`log_event` is total: a webhook failure is caught and never
raised.) -/
theorem C8_webhook_independent (e₁ e₂ : LogEnv) (h : e₁.csvWriteOk = e₂.csvWriteOk)
    (timestamp ip event : String) (password chat story_url : Option String) (log : Log)
    (pw : String) (body : Option Dict) (addr : Option String) :
    (log_event e₁ timestamp ip event password chat story_url log).log
      = (log_event e₂ timestamp ip event password chat story_url log).log ∧
    (log_event e₁ timestamp ip event password chat story_url log).attempted
      = (log_event e₂ timestamp ip event password chat story_url log).attempted ∧
    (save_password pw e₁ timestamp body addr log).response
      = (save_password pw e₂ timestamp body addr log).response ∧
    (save_password pw e₁ timestamp body addr log).log
      = (save_password pw e₂ timestamp body addr log).log := by
  refine ⟨by simp [log_event, h], rfl, ?_, ?_⟩
  · unfold save_password
    by_cases hc : dictGet (body.getD []) "password" "" == pw
    · simp only [hc, if_true]
    · simp only [hc, Bool.false_eq_true, if_false]
  · unfold save_password
    by_cases hc : dictGet (body.getD []) "password" "" == pw
    · simp only [hc, if_true]
      simp [log_event, h]
    · simp only [hc, Bool.false_eq_true, if_false]
      simp [log_event, h]

/-- Witness for C8: a webhook outage (delivery failing, then unconfigured)
leaves the gate's response and the CSV log unchanged. -/
theorem C8_webhook_independent_witness :
    (save_password "mrshaik" ⟨true, "http://webhook", false⟩ "t"
        (some [("password", "mrshaik")]) (some "1.2.3.4") []).response
      = (save_password "mrshaik" ⟨true, "", true⟩ "t"
        (some [("password", "mrshaik")]) (some "1.2.3.4") []).response ∧
    (save_password "mrshaik" ⟨true, "http://webhook", false⟩ "t"
        (some [("password", "mrshaik")]) (some "1.2.3.4") []).log
      = (save_password "mrshaik" ⟨true, "", true⟩ "t"
        (some [("password", "mrshaik")]) (some "1.2.3.4") []).log :=
  ⟨(C8_webhook_independent ⟨true, "http://webhook", false⟩ ⟨true, "", true⟩ rfl
      "t" "ip" "e" none none none [] "mrshaik" (some [("password", "mrshaik")])
      (some "1.2.3.4")).2.2.1,
   (C8_webhook_independent ⟨true, "http://webhook", false⟩ ⟨true, "", true⟩ rfl
      "t" "ip" "e" none none none [] "mrshaik" (some [("password", "mrshaik")])
      (some "1.2.3.4")).2.2.2⟩

/-- C5: with a working log file, a submitted credential equal to the
configured secret (default `"mrshaik"`) yields the redirect response and
exactly one `password_attempt` record carrying the raw credential; any other
credential yields the message response and exactly one
`password_attempt_failed` record. -/
theorem C5_gate (secretEnv : Option String) (lenv : LogEnv) (timestamp : String)
    (body : Option Dict) (addr : Option String) (log : Log)
    (hcsv : lenv.csvWriteOk = true) :
    ADMIN_PASSWORD none = "mrshaik" ∧
    (dictGet (body.getD []) "password" "" = ADMIN_PASSWORD secretEnv →
      (save_password (ADMIN_PASSWORD secretEnv) lenv timestamp body addr log).response
          = .json [("redirect", "/main")] ∧
      (save_password (ADMIN_PASSWORD secretEnv) lenv timestamp body addr log).log
          = log ++ [⟨timestamp, pyOrStr addr "unknown", "password_attempt",
                     dictGet (body.getD []) "password" "", "", ""⟩]) ∧
    (dictGet (body.getD []) "password" "" ≠ ADMIN_PASSWORD secretEnv →
      (save_password (ADMIN_PASSWORD secretEnv) lenv timestamp body addr log).response
          = .json [("message", "Wrong password ❌")] ∧
      (save_password (ADMIN_PASSWORD secretEnv) lenv timestamp body addr log).log
          = log ++ [⟨timestamp, pyOrStr addr "unknown", "password_attempt_failed",
                     dictGet (body.getD []) "password" "", "", ""⟩]) := by
  refine ⟨rfl, ?_, ?_⟩
  · intro h
    unfold save_password
    simp [h, log_event, hcsv]
  · intro h
    unfold save_password
    simp [h, log_event, hcsv]

/-- Witness for C5: submitting the default secret `"mrshaik"` is accepted and
logged as `password_attempt` with the raw credential; submitting `"guess"` is
rejected and logged as `password_attempt_failed`. -/
theorem C5_gate_witness :
    ((save_password (ADMIN_PASSWORD none) ⟨true, "", false⟩ "t"
        (some [("password", "mrshaik")]) (some "1.2.3.4") []).response
      = .json [("redirect", "/main")] ∧
     (save_password (ADMIN_PASSWORD none) ⟨true, "", false⟩ "t"
        (some [("password", "mrshaik")]) (some "1.2.3.4") []).log
      = [⟨"t", "1.2.3.4", "password_attempt", "mrshaik", "", ""⟩]) ∧
    ((save_password (ADMIN_PASSWORD none) ⟨true, "", false⟩ "t"
        (some [("password", "guess")]) (some "1.2.3.4") []).response
      = .json [("message", "Wrong password ❌")] ∧
     (save_password (ADMIN_PASSWORD none) ⟨true, "", false⟩ "t"
        (some [("password", "guess")]) (some "1.2.3.4") []).log
      = [⟨"t", "1.2.3.4", "password_attempt_failed", "guess", "", ""⟩]) :=
  ⟨(C5_gate none ⟨true, "", false⟩ "t" (some [("password", "mrshaik")])
      (some "1.2.3.4") [] rfl).2.1 (by decide),
   (C5_gate none ⟨true, "", false⟩ "t" (some [("password", "guess")])
      (some "1.2.3.4") [] rfl).2.2 (by decide)⟩

theorem event_name_eq (uploader : Option String) :
    (if uploader.getD "user" == "admin"
      then "admin_story_upload" else "user_story_upload")
      = (if uploader = some "admin"
          then "admin_story_upload" else "user_story_upload") := by
  cases uploader with
  | none => decide
  | some s =>
      by_cases hs : s = "admin"
      · simp [hs]
      · simp [hs]

theorem event_name_eq' (uploader : Option String) :
    (if uploader.getD "user" = "admin"
      then "admin_story_upload" else "user_story_upload")
      = (if uploader = some "admin"
          then "admin_story_upload" else "user_story_upload") := by
  cases uploader with
  | none => decide
  | some s =>
      by_cases hs : s = "admin"
      · simp [hs]
      · simp [hs]

/-- C3: a request with a missing `'video'` field, an empty filename, or a
disallowed extension is answered with HTTP 400 and produces no side effect:
the upload directory and the log are unchanged, no row reaches the CSV
writer, and no remote upload is attempted. -/
theorem C3_rejected_no_side_effects (env : UploadEnv) (timestamp : String)
    (req : UploadRequest) (disk : Disk) (log : Log)
    (hbad : req.video = none ∨ ∃ f, req.video = some f ∧
              (f.filename = "" ∨ allowed_file f.filename = false)) :
    (upload_story_video env timestamp req disk log).response.status = 400 ∧
    (upload_story_video env timestamp req disk log).disk = disk ∧
    (upload_story_video env timestamp req disk log).log = log ∧
    (upload_story_video env timestamp req disk log).attempted = [] ∧
    (upload_story_video env timestamp req disk log).remoteCalls = [] := by
  rcases hbad with h | ⟨f, hfv, hcase⟩
  · simp [upload_story_video, h, HttpResponse.status]
  · rcases hcase with h1 | h2
    · simp [upload_story_video, hfv, h1, HttpResponse.status]
    · by_cases hemp : f.filename = ""
      · simp [upload_story_video, hfv, hemp, HttpResponse.status]
      · simp [upload_story_video, hfv, hemp, h2, HttpResponse.status]

/-- Witness for C3: uploading `notes.txt` (extension not in the allow-list)
is rejected with 400 and leaves an empty disk and log untouched. -/
theorem C3_rejected_no_side_effects_witness :
    (upload_story_video
        ⟨true, fun _ => Except.error "down", fun s => s, "http://h", ⟨true, "", true⟩⟩
        "t" ⟨some ⟨"notes.txt", "bytes"⟩, none, none⟩ ⟨[]⟩ []).response.status = 400 ∧
    (upload_story_video
        ⟨true, fun _ => Except.error "down", fun s => s, "http://h", ⟨true, "", true⟩⟩
        "t" ⟨some ⟨"notes.txt", "bytes"⟩, none, none⟩ ⟨[]⟩ []).disk = ⟨[]⟩ ∧
    (upload_story_video
        ⟨true, fun _ => Except.error "down", fun s => s, "http://h", ⟨true, "", true⟩⟩
        "t" ⟨some ⟨"notes.txt", "bytes"⟩, none, none⟩ ⟨[]⟩ []).log = [] ∧
    (upload_story_video
        ⟨true, fun _ => Except.error "down", fun s => s, "http://h", ⟨true, "", true⟩⟩
        "t" ⟨some ⟨"notes.txt", "bytes"⟩, none, none⟩ ⟨[]⟩ []).attempted = [] ∧
    (upload_story_video
        ⟨true, fun _ => Except.error "down", fun s => s, "http://h", ⟨true, "", true⟩⟩
        "t" ⟨some ⟨"notes.txt", "bytes"⟩, none, none⟩ ⟨[]⟩ []).remoteCalls = [] :=
  C3_rejected_no_side_effects _ "t" _ ⟨[]⟩ []
    (Or.inr ⟨⟨"notes.txt", "bytes"⟩, rfl, Or.inr (by decide)⟩)

/-- C9: for every validated upload, the logged `event_kind` is
`admin_story_upload` exactly when the submitted `uploader` form field equals
the string `"admin"`; a missing field, `"user"`, `"Admin"`, `"root"` or any
other value yields `user_story_upload`. -/
theorem C9_event_kind (env : UploadEnv) (timestamp : String) (req : UploadRequest)
    (file : FileStorage) (disk : Disk) (log : Log)
    (hv : req.video = some file) (hf : file.filename ≠ "")
    (ha : allowed_file file.filename = true) :
    (upload_story_video env timestamp req disk log).attempted.map Record.event
      = [if req.uploader = some "admin"
          then "admin_story_upload" else "user_story_upload"] := by
  rw [← event_name_eq]
  simp [upload_story_video, hv, hf, ha, log_event]

/-- Witness for C9: `uploader = "admin"` logs `admin_story_upload`, while the
arbitrary value `"Admin"` logs `user_story_upload`. -/
theorem C9_event_kind_witness :
    (upload_story_video
        ⟨true, fun _ => Except.error "down", fun s => s, "http://h", ⟨true, "", true⟩⟩
        "t" ⟨some ⟨"a.mp4", "bytes"⟩, some "admin", none⟩ ⟨[]⟩ []).attempted.map Record.event
      = ["admin_story_upload"] ∧
    (upload_story_video
        ⟨true, fun _ => Except.error "down", fun s => s, "http://h", ⟨true, "", true⟩⟩
        "t" ⟨some ⟨"a.mp4", "bytes"⟩, some "Admin", none⟩ ⟨[]⟩ []).attempted.map Record.event
      = ["user_story_upload"] :=
  ⟨C9_event_kind _ "t" ⟨some ⟨"a.mp4", "bytes"⟩, some "admin", none⟩
      ⟨"a.mp4", "bytes"⟩ ⟨[]⟩ [] rfl (by decide) (by decide),
   C9_event_kind _ "t" ⟨some ⟨"a.mp4", "bytes"⟩, some "Admin", none⟩
      ⟨"a.mp4", "bytes"⟩ ⟨[]⟩ [] rfl (by decide) (by decide)⟩

/-- Characterization of a validated `upload_story_video` run: the response is
the redirect, the disk gets the local copy when `file.save` succeeds, and the
single logged row carries the Cloudinary `secure_url`, or the local
`/uploads/<filename>` fallback URL when the remote call (or the local open)
fails. -/
theorem upload_validated_run (env : UploadEnv) (timestamp : String) (req : UploadRequest)
    (file : FileStorage) (disk : Disk) (log : Log)
    (hv : req.video = some file) (hf : file.filename ≠ "")
    (ha : allowed_file file.filename = true) :
    upload_story_video env timestamp req disk log =
      (let filename := env.secureFilename file.filename
       let disk1 := if env.localSaveOk then disk.write filename file.content else disk
       let urlCalls : String × List String :=
         match disk1.read filename with
         | none => (env.externalHost ++ "/uploads/" ++ filename, [])
         | some bytes =>
           match env.remote bytes with
           | .ok uploadResult => (dictGet uploadResult "secure_url" "", [bytes])
           | .error _ => (env.externalHost ++ "/uploads/" ++ filename, [bytes])
       let row : Record := ⟨timestamp, pyOrStr req.remoteAddr "unknown",
         if req.uploader.getD "user" == "admin"
           then "admin_story_upload" else "user_story_upload",
         "", "", urlCalls.1⟩
       ⟨.redirectMain, disk1,
        if env.logEnv.csvWriteOk then log ++ [row] else log,
        [row], urlCalls.2⟩) := by
  have h1 : (file.filename == "") = false := by simp [hf]
  have h2 : (!allowed_file file.filename) = false := by simp [ha]
  unfold upload_story_video
  rw [hv]
  dsimp only []
  rw [h1, h2]
  rfl

/-- C2: every validated upload performs exactly one log append, the physical
log (with a working CSV file) grows by exactly that row, the row's
`event_kind` matches the actor class, and its `story_url` is non-empty —
given that the Cloudinary oracle honors the external API contract that a
successful result carries a non-empty `secure_url`. -/
theorem C2_success_one_append (env : UploadEnv) (timestamp : String) (req : UploadRequest)
    (file : FileStorage) (disk : Disk) (log : Log)
    (hv : req.video = some file) (hf : file.filename ≠ "")
    (ha : allowed_file file.filename = true)
    (hr : remoteSecureUrlNonempty env.remote)
    (hcsv : env.logEnv.csvWriteOk = true) :
    (upload_story_video env timestamp req disk log).attempted.length = 1 ∧
    (upload_story_video env timestamp req disk log).log
      = log ++ (upload_story_video env timestamp req disk log).attempted ∧
    (upload_story_video env timestamp req disk log).attempted.map Record.event
      = [if req.uploader = some "admin"
          then "admin_story_upload" else "user_story_upload"] ∧
    (upload_story_video env timestamp req disk log).attempted.all
      (fun rec => rec.story_url != "") = true := by
  rw [upload_validated_run env timestamp req file disk log hv hf ha]
  refine ⟨rfl, by simp [hcsv], by simp [event_name_eq'], ?_⟩
  cases hread : (if env.localSaveOk
      then disk.write (env.secureFilename file.filename) file.content
      else disk).read (env.secureFilename file.filename) with
  | none =>
      simp only [hread, List.all_cons, List.all_nil, Bool.and_true]
      simp [append_uploads_ne_empty env.externalHost (env.secureFilename file.filename)]
  | some bytes =>
      cases hrem : env.remote bytes with
      | ok uploadResult =>
          simp only [hread, hrem, List.all_cons, List.all_nil, Bool.and_true]
          simp [hr bytes uploadResult hrem]
      | error e =>
          simp only [hread, hrem, List.all_cons, List.all_nil, Bool.and_true]
          simp [append_uploads_ne_empty env.externalHost (env.secureFilename file.filename)]

/-- Witness for C2: an admin upload of `a.mp4` with a healthy local disk,
a Cloudinary oracle answering `secure_url = "https://cdn/v.mp4"`, and a
working CSV file appends exactly one non-empty admin record. -/
theorem C2_success_one_append_witness :
    (upload_story_video
        ⟨true, fun _ => Except.ok [("secure_url", "https://cdn/v.mp4")], fun s => s,
          "http://h", ⟨true, "", true⟩⟩
        "t" ⟨some ⟨"a.mp4", "bytes"⟩, some "admin", none⟩ ⟨[]⟩ []).attempted.length = 1 ∧
    (upload_story_video
        ⟨true, fun _ => Except.ok [("secure_url", "https://cdn/v.mp4")], fun s => s,
          "http://h", ⟨true, "", true⟩⟩
        "t" ⟨some ⟨"a.mp4", "bytes"⟩, some "admin", none⟩ ⟨[]⟩ []).log
      = [] ++ (upload_story_video
        ⟨true, fun _ => Except.ok [("secure_url", "https://cdn/v.mp4")], fun s => s,
          "http://h", ⟨true, "", true⟩⟩
        "t" ⟨some ⟨"a.mp4", "bytes"⟩, some "admin", none⟩ ⟨[]⟩ []).attempted ∧
    (upload_story_video
        ⟨true, fun _ => Except.ok [("secure_url", "https://cdn/v.mp4")], fun s => s,
          "http://h", ⟨true, "", true⟩⟩
        "t" ⟨some ⟨"a.mp4", "bytes"⟩, some "admin", none⟩ ⟨[]⟩ []).attempted.map Record.event
      = [if (some "admin" : Option String) = some "admin"
          then "admin_story_upload" else "user_story_upload"] ∧
    (upload_story_video
        ⟨true, fun _ => Except.ok [("secure_url", "https://cdn/v.mp4")], fun s => s,
          "http://h", ⟨true, "", true⟩⟩
        "t" ⟨some ⟨"a.mp4", "bytes"⟩, some "admin", none⟩ ⟨[]⟩ []).attempted.all
      (fun rec => rec.story_url != "") = true :=
  C2_success_one_append
    ⟨true, fun _ => Except.ok [("secure_url", "https://cdn/v.mp4")], fun s => s,
      "http://h", ⟨true, "", true⟩⟩
    "t" ⟨some ⟨"a.mp4", "bytes"⟩, some "admin", none⟩ ⟨"a.mp4", "bytes"⟩ ⟨[]⟩ []
    rfl (by decide) (by decide)
    (by
      intro b d hbd
      injection hbd with h
      subst h
      decide)
    rfl

/-- Counterexample to C4 as stated: a validated upload of `a.mp4` on which
both the local `file.save` and the remote upload fail. The pipeline still
completes with the redirect and logs the local fallback URL
`http://h/uploads/a.mp4`, but no file named `a.mp4` exists on disk — the
claim's "the local file exists on disk under its sanitized name" is false
whenever the local save also failed. -/
theorem C4_counterexample :
    (upload_story_video
        ⟨false, fun _ => Except.error "remote down", fun s => s, "http://h", ⟨true, "", false⟩⟩
        "t" ⟨some ⟨"a.mp4", "bytes"⟩, some "admin", some "1.2.3.4"⟩ ⟨[]⟩ []).response
      = .redirectMain ∧
    (upload_story_video
        ⟨false, fun _ => Except.error "remote down", fun s => s, "http://h", ⟨true, "", false⟩⟩
        "t" ⟨some ⟨"a.mp4", "bytes"⟩, some "admin", some "1.2.3.4"⟩ ⟨[]⟩
        []).attempted.map Record.story_url
      = ["http://h/uploads/a.mp4"] ∧
    Disk.read (upload_story_video
        ⟨false, fun _ => Except.error "remote down", fun s => s, "http://h", ⟨true, "", false⟩⟩
        "t" ⟨some ⟨"a.mp4", "bytes"⟩, some "admin", some "1.2.3.4"⟩ ⟨[]⟩ []).disk "a.mp4"
      = none :=
  ⟨rfl, rfl, rfl⟩

/-- C4 (amended): for every validated upload on which the remote media-host
upload fails, the failure is caught and the response is still the success
redirect (never an error); the single logged URL is the non-empty local
`/uploads/<sanitized filename>` fallback; and — provided the local save
succeeded — the `/uploads/<filename>` route serves the saved bytes. -/
theorem C4_remote_failure_fallback (env : UploadEnv) (timestamp : String)
    (req : UploadRequest) (file : FileStorage) (disk : Disk) (log : Log)
    (hv : req.video = some file) (hf : file.filename ≠ "")
    (ha : allowed_file file.filename = true)
    (hr : remoteAlwaysFails env.remote) :
    (upload_story_video env timestamp req disk log).response = .redirectMain ∧
    (upload_story_video env timestamp req disk log).response.status ≠ 400 ∧
    (upload_story_video env timestamp req disk log).attempted.map Record.story_url
      = [env.externalHost ++ "/uploads/" ++ env.secureFilename file.filename] ∧
    env.externalHost ++ "/uploads/" ++ env.secureFilename file.filename ≠ "" ∧
    (env.localSaveOk = true →
      uploaded_file (upload_story_video env timestamp req disk log).disk
          (env.secureFilename file.filename) = some file.content) := by
  rw [upload_validated_run env timestamp req file disk log hv hf ha]
  refine ⟨rfl, by show (302 : Nat) ≠ 400; decide, ?_, append_uploads_ne_empty _ _, ?_⟩
  · cases hread : (if env.localSaveOk
        then disk.write (env.secureFilename file.filename) file.content
        else disk).read (env.secureFilename file.filename) with
    | none => simp [hread]
    | some bytes =>
        cases hrem : env.remote bytes with
        | ok uploadResult => exact absurd hrem (hr bytes uploadResult)
        | error e => simp [hread, hrem]
  · intro hsave
    simp [uploaded_file, hsave, Disk.read_write]

/-- Witness for C4 (amended): local save succeeds, remote fails — the logged
URL is the fallback and `/uploads/a.mp4` serves the saved bytes. -/
theorem C4_remote_failure_fallback_witness :
    (upload_story_video
        ⟨true, fun _ => Except.error "remote down", fun s => s, "http://h", ⟨true, "", false⟩⟩
        "t" ⟨some ⟨"a.mp4", "bytes"⟩, some "user", some "1.2.3.4"⟩ ⟨[]⟩ []).response
      = .redirectMain ∧
    (upload_story_video
        ⟨true, fun _ => Except.error "remote down", fun s => s, "http://h", ⟨true, "", false⟩⟩
        "t" ⟨some ⟨"a.mp4", "bytes"⟩, some "user", some "1.2.3.4"⟩ ⟨[]⟩
        []).response.status ≠ 400 ∧
    (upload_story_video
        ⟨true, fun _ => Except.error "remote down", fun s => s, "http://h", ⟨true, "", false⟩⟩
        "t" ⟨some ⟨"a.mp4", "bytes"⟩, some "user", some "1.2.3.4"⟩ ⟨[]⟩
        []).attempted.map Record.story_url
      = ["http://h" ++ "/uploads/" ++ "a.mp4"] ∧
    ("http://h" ++ "/uploads/" ++ "a.mp4" : String) ≠ "" ∧
    (True → uploaded_file (upload_story_video
        ⟨true, fun _ => Except.error "remote down", fun s => s, "http://h", ⟨true, "", false⟩⟩
        "t" ⟨some ⟨"a.mp4", "bytes"⟩, some "user", some "1.2.3.4"⟩ ⟨[]⟩ []).disk "a.mp4"
      = some "bytes") := by
  have h := C4_remote_failure_fallback
      ⟨true, fun _ => Except.error "remote down", fun s => s, "http://h", ⟨true, "", false⟩⟩
      "t" ⟨some ⟨"a.mp4", "bytes"⟩, some "user", some "1.2.3.4"⟩ ⟨"a.mp4", "bytes"⟩ ⟨[]⟩ []
      rfl (by decide) (by decide)
      (by
        intro b d hbd
        exact Except.noConfusion hbd)
  exact ⟨h.1, h.2.1, h.2.2.1, h.2.2.2.1, fun _ => h.2.2.2.2 rfl⟩

/-- C10: for every validated upload, every byte string handed to the remote
uploader was read back from the local copy on disk (not taken from the
request stream); consequently, when the local save fails and no file exists
at the local path, the remote upload is never attempted (so it never
succeeds), and the single logged URL is the local fallback URL even though no
local file backs it. -/
theorem C10_remote_reads_local_copy (env : UploadEnv) (timestamp : String)
    (req : UploadRequest) (file : FileStorage) (disk : Disk) (log : Log)
    (hv : req.video = some file) (hf : file.filename ≠ "")
    (ha : allowed_file file.filename = true) :
    (upload_story_video env timestamp req disk log).remoteCalls.all
      (fun b => (if env.localSaveOk
          then disk.write (env.secureFilename file.filename) file.content
          else disk).read (env.secureFilename file.filename) == some b) = true ∧
    (env.localSaveOk = false →
      disk.read (env.secureFilename file.filename) = none →
      (upload_story_video env timestamp req disk log).remoteCalls = [] ∧
      (upload_story_video env timestamp req disk log).attempted.map Record.story_url
        = [env.externalHost ++ "/uploads/" ++ env.secureFilename file.filename] ∧
      (upload_story_video env timestamp req disk log).disk.read
          (env.secureFilename file.filename) = none) := by
  rw [upload_validated_run env timestamp req file disk log hv hf ha]
  constructor
  · cases hread : (if env.localSaveOk
        then disk.write (env.secureFilename file.filename) file.content
        else disk).read (env.secureFilename file.filename) with
    | none => simp [hread]
    | some bytes =>
        cases hrem : env.remote bytes with
        | ok uploadResult => simp [hread, hrem]
        | error e => simp [hread, hrem]
  · intro hsave hnone
    simp [hsave, hnone]

/-- Witness for C10: local save fails on an empty disk — no remote call is
made, the logged URL is `http://h/uploads/a.mp4`, and no such file exists. -/
theorem C10_remote_reads_local_copy_witness :
    (upload_story_video
        ⟨false, fun _ => Except.ok [("secure_url", "https://cdn/v.mp4")], fun s => s,
          "http://h", ⟨true, "", false⟩⟩
        "t" ⟨some ⟨"a.mp4", "bytes"⟩, none, none⟩ ⟨[]⟩ []).remoteCalls.all
      (fun b => (if false
          then Disk.write ⟨[]⟩ "a.mp4" "bytes"
          else ⟨[]⟩).read "a.mp4" == some b) = true ∧
    ((upload_story_video
        ⟨false, fun _ => Except.ok [("secure_url", "https://cdn/v.mp4")], fun s => s,
          "http://h", ⟨true, "", false⟩⟩
        "t" ⟨some ⟨"a.mp4", "bytes"⟩, none, none⟩ ⟨[]⟩ []).remoteCalls = [] ∧
     (upload_story_video
        ⟨false, fun _ => Except.ok [("secure_url", "https://cdn/v.mp4")], fun s => s,
          "http://h", ⟨true, "", false⟩⟩
        "t" ⟨some ⟨"a.mp4", "bytes"⟩, none, none⟩ ⟨[]⟩ []).attempted.map Record.story_url
        = ["http://h" ++ "/uploads/" ++ "a.mp4"] ∧
     (upload_story_video
        ⟨false, fun _ => Except.ok [("secure_url", "https://cdn/v.mp4")], fun s => s,
          "http://h", ⟨true, "", false⟩⟩
        "t" ⟨some ⟨"a.mp4", "bytes"⟩, none, none⟩ ⟨[]⟩ []).disk.read "a.mp4" = none) := by
  have h := C10_remote_reads_local_copy
      ⟨false, fun _ => Except.ok [("secure_url", "https://cdn/v.mp4")], fun s => s,
        "http://h", ⟨true, "", false⟩⟩
      "t" ⟨some ⟨"a.mp4", "bytes"⟩, none, none⟩ ⟨"a.mp4", "bytes"⟩ ⟨[]⟩ []
      rfl (by decide) (by decide)
  exact ⟨h.1, h.2 rfl rfl⟩

end UniqueApp
